import Mathlib

/-!
Verification of the artifact planner in `configure.py` (obj_lib).

The script is a straight-line build configurator: it declares a library
artifact from the library sources, exits early for submodule builds, and
otherwise declares test artifacts whose shape depends on the target
platform queries (`target.is_ios/is_android/is_tizen/is_macos`) and the
toolchain's monolithic flag.  We embed the script as a pure function
`plan : Manifest → Facts → List Artifact`, with the script's hardcoded
project data (`project = 'obj'`, `obj_sources`, `dependlibs`,
`test_cases = ['obj']`, the `is_subninja()` query) lifted into the
`Manifest` record, and the external generator/toolchain queries
(`is_monolithic()`, the platform booleans, `toolchain.configs`,
`test_includepaths()`) lifted into the `Facts` record.
-/

/-- Kind of a declared build artifact: `generator.lib`, `generator.bin`
or `generator.app` in the script. -/
inductive ArtifactKind where
  | lib
  | bin
  | app
deriving DecidableEq, Repr

/-- One artifact declaration, carrying the keyword arguments the script
passes to `generator.lib` / `generator.bin` / `generator.app`.
`implicit_deps` holds the binary names of the artifacts passed as
`implicit_deps` (the script always passes `[obj_lib]`, the library
artifact, which the generator names after its module). -/
structure Artifact where
  kind : ArtifactKind
  module : String
  sources : List String
  binname : String
  basepath : String
  implicit_deps : List String
  libs : List String
  resources : List String
  includepaths : List String
deriving DecidableEq, Repr

/-- Static project facts of the script: the project/module name
(`'obj'`), the library sources (`obj_sources`), the dependency
libraries (`dependlibs`), the test case directories (`test_cases`
before the monolithic branch appends `'all'`), and the submodule flag
(`generator.is_subninja()`). -/
structure Manifest where
  moduleName : String
  librarySources : List String
  dependencyLibraries : List String
  testCases : List String
  isSubmodule : Bool
deriving DecidableEq, Repr

/-- Platform kinds distinguished by the script's `target.is_*` queries.
`genericDesktop` stands for any desktop target (e.g. linux, windows)
for which all four recognized-platform queries answer false;
`other` stands for an unrecognized platform kind, which likewise
answers false to every recognized-platform query. -/
inductive PlatformKind where
  | genericDesktop
  | macos
  | ios
  | android
  | tizen
  | other
deriving DecidableEq, Repr

/-- Query `target.is_ios()`. -/
def PlatformKind.is_ios : PlatformKind → Bool
  | .ios => true
  | _ => false

/-- Query `target.is_android()`. -/
def PlatformKind.is_android : PlatformKind → Bool
  | .android => true
  | _ => false

/-- Query `target.is_tizen()`. -/
def PlatformKind.is_tizen : PlatformKind → Bool
  | .tizen => true
  | _ => false

/-- Query `target.is_macos()`. -/
def PlatformKind.is_macos : PlatformKind → Bool
  | .macos => true
  | _ => false

/-- Queried platform/toolchain facts: the target platform, the
toolchain's `is_monolithic()` answer, `toolchain.configs`, and the
result of `generator.test_includepaths()`. -/
structure Facts where
  platform : PlatformKind
  isMonolithic : Bool
  configs : List String
  testIncludepaths : List String
deriving DecidableEq, Repr

/-- Path join (`os.path.join`) with two components on a posix-style target. -/
def pathJoin (a b : String) : String := a ++ "/" ++ b

/-- The library artifact declared by
`generator.lib(module = 'obj', sources = obj_sources + extrasources)`
(line 24); `extrasources` is `[]` at that point. -/
def objLib (m : Manifest) : Artifact :=
  let extrasources : List String := []
  { kind := .lib
    module := m.moduleName
    sources := m.librarySources ++ extrasources
    binname := m.moduleName
    basepath := ""
    implicit_deps := []
    libs := []
    resources := []
    includepaths := [] }

/-- The `test_resources` list assigned in the monolithic branch (lines
41-59): set for iOS, Android and Tizen, left `[]` for every other platform. -/
def monoResources (p : PlatformKind) : List String :=
  if p.is_ios then
    ["test-all.plist", "Images.xcassets", "test-all.xib"].map
      (fun item => pathJoin "all" (pathJoin "ios" item))
  else if p.is_android then
    ["AndroidManifest.xml", pathJoin "layout" "main.xml", pathJoin "values" "strings.xml",
     pathJoin "drawable-ldpi" "icon.png", pathJoin "drawable-mdpi" "icon.png",
     pathJoin "drawable-hdpi" "icon.png", pathJoin "drawable-xhdpi" "icon.png",
     pathJoin "drawable-xxhdpi" "icon.png", pathJoin "drawable-xxxhdpi" "icon.png"].map
      (fun item => pathJoin "all" (pathJoin "android" item))
  else if p.is_tizen then
    ["tizen-manifest.xml", pathJoin "res" "tizenapp.png"].map
      (fun item => pathJoin "all" (pathJoin "tizen" item))
  else []

/-- The `test_extrasources` list assigned in the monolithic branch
(lines 41-59): set for iOS and Android, left `[]` for every other platform. -/
def monoExtraSources (p : PlatformKind) : List String :=
  if p.is_ios then
    [pathJoin "all" (pathJoin "ios" "viewcontroller.m")]
  else if p.is_android then
    ["TestActivity.java"].map (fun item =>
      pathJoin "all" (pathJoin "android" (pathJoin "java" (pathJoin "com"
        (pathJoin "maniccoder" (pathJoin "obj" (pathJoin "test" item)))))))
  else []

/-- The `test_resources` list built for one test case in the per-artifact macOS
branch (line 70): `['osx/test-<t>.plist', 'osx/Images.xcassets',
'osx/test-<t>.xib']`. -/
def macResources (t : String) : List String :=
  ["test-" ++ t ++ ".plist", "Images.xcassets", "test-" ++ t ++ ".xib"].map
    (fun item => pathJoin "osx" item)

/-- Line 36: `linklibs = ['test', 'obj'] + dependlibs`. -/
def linklibs (m : Manifest) : List String :=
  ["test", m.moduleName] ++ m.dependencyLibraries

/-- The single `test-all` artifact of the monolithic branch (lines
60-63): an app bundle on macOS/iOS/Android/Tizen and a plain bin
otherwise, with sources `[os.path.join(module, 'main.c') for module in
test_cases] + test_extrasources` where `test_cases` has had `'all'`
appended (line 43). -/
def monoArtifact (m : Manifest) (f : Facts) : Artifact :=
  { kind :=
      if f.platform.is_macos || f.platform.is_ios || f.platform.is_android || f.platform.is_tizen
      then ArtifactKind.app else ArtifactKind.bin
    module := ""
    sources := (m.testCases ++ ["all"]).map (fun md => pathJoin md "main.c")
      ++ monoExtraSources f.platform
    binname := "test-all"
    basepath := "test"
    implicit_deps := [(objLib m).binname]
    libs := linklibs m
    resources := monoResources f.platform
    includepaths := f.testIncludepaths }

/-- The artifact declared for one test case in the per-artifact branch
(lines 68-73): an app bundle with the per-test osx resources on macOS
(line 71), a plain bin with no resources otherwise (line 73). -/
def perCaseArtifact (m : Manifest) (f : Facts) (t : String) : Artifact :=
  if f.platform.is_macos then
    { kind := ArtifactKind.app
      module := t
      sources := ["main.c"]
      binname := "test-" ++ t
      basepath := "test"
      implicit_deps := [(objLib m).binname]
      libs := linklibs m
      resources := macResources t
      includepaths := f.testIncludepaths }
  else
    { kind := ArtifactKind.bin
      module := t
      sources := ["main.c"]
      binname := "test-" ++ t
      basepath := "test"
      implicit_deps := [(objLib m).binname]
      libs := linklibs m
      resources := []
      includepaths := f.testIncludepaths }

/-- The monolithic-branch condition of line 39:
`toolchain.is_monolithic() or target.is_ios() or target.is_android()
or target.is_tizen()`. -/
def monoCond (f : Facts) : Bool :=
  f.isMonolithic || f.platform.is_ios || f.platform.is_android || f.platform.is_tizen

/-- The planner: the executable part of `configure.py` (lines 12-73) as
a pure function of the manifest and the queried facts, returning the
declared artifacts in declaration order.

Faithfulness notes, keyed to source lines:
* line 24: the library artifact is declared first, unconditionally.
* lines 27-28: `configs` is computed (only off iOS/Android/Tizen) and
  then never used; we keep the dead computation as `_configs`.
* lines 31-32: on `is_subninja()` the script exits normally right after
  the library artifact, so the plan is the singleton library list.
* line 39: the monolithic branch is taken when
  `toolchain.is_monolithic() or is_ios or is_android or is_tizen`
  (`monoCond`).
* lines 60-63: the single `test-all` artifact is an app bundle when the
  platform is macOS/iOS/Android/Tizen and a plain bin otherwise; both
  calls pass identical arguments apart from the artifact kind
  (`monoArtifact`).
* line 66: `if not generator.is_subninja:` tests the truthiness of the
  bound method object itself (no call; contrast line 31), which is
  always truthy, so the condition is always false and the line-67
  `test-all` bin of the per-artifact branch is dead code, never
  emitted.  The embedding therefore omits it.
* lines 68-73: one artifact per test case, an app bundle with the
  per-test osx resources on macOS, a plain bin with no resources
  otherwise (`perCaseArtifact`). -/
def plan (m : Manifest) (f : Facts) : List Artifact :=
  let obj_lib := objLib m
  let _configs : List String :=
    if !f.platform.is_ios && !f.platform.is_android && !f.platform.is_tizen then
      f.configs.filter (fun config => !(["profile", "deploy"].contains config))
    else f.configs
  if m.isSubmodule then
    [obj_lib]
  else
    if monoCond f then
      [obj_lib, monoArtifact m f]
    else
      obj_lib :: m.testCases.map (perCaseArtifact m f)

/-- Closed form of `plan` by cases on the two branch conditions. -/
theorem plan_eq (m : Manifest) (f : Facts) :
    plan m f =
      if m.isSubmodule then [objLib m]
      else if monoCond f then [objLib m, monoArtifact m f]
      else objLib m :: m.testCases.map (perCaseArtifact m f) := rfl

/-- Membership characterization of the planner's output. -/
theorem mem_plan_iff (m : Manifest) (f : Facts) (a : Artifact) :
    a ∈ plan m f ↔
      a = objLib m ∨
        (m.isSubmodule = false ∧
          ((monoCond f = true ∧ a = monoArtifact m f) ∨
            (monoCond f = false ∧ ∃ t ∈ m.testCases, a = perCaseArtifact m f t))) := by
  rw [plan_eq]
  by_cases hsub : m.isSubmodule = true
  · simp [hsub]
  · simp only [Bool.not_eq_true] at hsub
    by_cases hmono : monoCond f = true
    · simp [hsub, hmono]
    · simp only [Bool.not_eq_true] at hmono
      simp [hsub, hmono]
      tauto

/-- The manifest hardcoded in the script: project `'obj'`, the three
library sources (lines 21-22), `dependlibs` (line 12) and the single
test case `'obj'` (line 38), for a non-submodule build. -/
def objManifest : Manifest :=
  { moduleName := "obj"
    librarySources := ["obj.c", "mesh.c", "version.c"]
    dependencyLibraries := ["mesh", "vector", "foundation"]
    testCases := ["obj"]
    isSubmodule := false }

/-- The manifest `objManifest` with the submodule flag set, i.e. the same project
built as a subninja of a parent project. -/
def subManifest : Manifest := { objManifest with isSubmodule := true }

/-- A manifest with two test cases `A` and `B`, as in the grouping
claims; everything else as in the script. -/
def abManifest : Manifest := { objManifest with testCases := ["A", "B"] }

example : (plan objManifest ⟨.genericDesktop, false, [], []⟩).map (fun a => a.binname)
    = ["obj", "test-obj"] := by decide

example : (plan objManifest ⟨.ios, false, [], []⟩).map (fun a => (a.binname, a.kind))
    = [("obj", .lib), ("test-all", .app)] := by decide

example : (plan objManifest ⟨.ios, false, [], []⟩).map (fun a => a.sources)
    = [["obj.c", "mesh.c", "version.c"], ["obj/main.c", "all/main.c", "all/ios/viewcontroller.m"]] := by
  decide

/-- Claim C9: the planner is deterministic — two invocations of `plan`
on identical inputs produce identical artifact sequences.  `plan` is a
pure function of its two arguments (the script's only reads of mutable
state are the queries lifted into `Facts`), so this holds reflexively. -/
theorem plan_deterministic (m : Manifest) (f : Facts) : plan m f = plan m f := rfl

/-- Claim C10: the planner's output is independent of the toolchain's
available-configurations list — the `configs` value computed on lines
27-28 is dead and never flows into any artifact declaration. -/
theorem plan_configs_independent (m : Manifest) (p : PlatformKind) (mono : Bool)
    (cs₁ cs₂ tip : List String) :
    plan m ⟨p, mono, cs₁, tip⟩ = plan m ⟨p, mono, cs₂, tip⟩ := rfl

/-- Claim C5: for a submodule manifest the plan is exactly the library
artifact, built from the library sources, regardless of platform and
linkage mode; no test artifact is declared. -/
theorem submodule_library_only (m : Manifest) (f : Facts) (h : m.isSubmodule = true) :
    plan m f = [objLib m] ∧ (objLib m).kind = ArtifactKind.lib ∧
      (objLib m).sources = m.librarySources := by
  refine ⟨?_, rfl, by simp [objLib]⟩
  simp [plan, h]

/-- Concrete instance of `submodule_library_only` at the script's own
manifest with the subninja flag set, on iOS with a monolithic
toolchain. -/
theorem submodule_library_only_witness :
    subManifest.isSubmodule = true ∧
      (plan subManifest ⟨.ios, true, [], []⟩ = [objLib subManifest] ∧
        (objLib subManifest).kind = ArtifactKind.lib ∧
        (objLib subManifest).sources = subManifest.librarySources) :=
  ⟨by decide, submodule_library_only subManifest ⟨.ios, true, [], []⟩ (by decide)⟩

/-- Claim C1: every non-library artifact in any output links, in order,
the test-support library, the module's own library, and the dependency
libraries — `linklibs = ['test', 'obj'] + dependlibs` (line 36), passed
unchanged to every emitted `bin`/`app` call.  (The dead line-67 call
would have passed `['obj'] + dependlibs` instead, but it never runs.) -/
theorem link_order_invariant (m : Manifest) (f : Facts) (a : Artifact)
    (ha : a ∈ plan m f) (hk : a.kind ≠ ArtifactKind.lib) :
    a.libs = ["test", m.moduleName] ++ m.dependencyLibraries := by
  rcases (mem_plan_iff m f a).mp ha with rfl | ⟨-, ⟨-, rfl⟩ | ⟨-, t, -, rfl⟩⟩
  · exact absurd rfl hk
  · rfl
  · unfold perCaseArtifact
    split <;> rfl

/-- Concrete instance of `link_order_invariant`: the `test-obj` plain
binary on a generic desktop, per-artifact mode. -/
theorem link_order_invariant_witness :
    ({ kind := ArtifactKind.bin, module := "obj", sources := ["main.c"],
       binname := "test-obj", basepath := "test", implicit_deps := ["obj"],
       libs := ["test", "obj", "mesh", "vector", "foundation"], resources := [],
       includepaths := [] } : Artifact) ∈ plan objManifest ⟨.genericDesktop, false, [], []⟩ ∧
    ({ kind := ArtifactKind.bin, module := "obj", sources := ["main.c"],
       binname := "test-obj", basepath := "test", implicit_deps := ["obj"],
       libs := ["test", "obj", "mesh", "vector", "foundation"], resources := [],
       includepaths := [] } : Artifact).libs
      = ["test", objManifest.moduleName] ++ objManifest.dependencyLibraries :=
  ⟨by decide,
   link_order_invariant objManifest ⟨.genericDesktop, false, [], []⟩ _ (by decide) (by decide)⟩

/-- Claim C8: in every output the library artifact is first, it is the
only library-kind artifact, and every non-library artifact lists it
(by its binary name) among its implicit dependencies. -/
theorem library_first_unique_implicit_dep (m : Manifest) (f : Facts) :
    (plan m f).head? = some (objLib m) ∧
    (plan m f).countP (fun a => a.kind == ArtifactKind.lib) = 1 ∧
    (plan m f).all
      (fun a => a.kind == ArtifactKind.lib ||
        a.implicit_deps.contains (objLib m).binname) = true := by
  have hper : ∀ t, ((perCaseArtifact m f t).kind == ArtifactKind.lib) = false ∧
      (perCaseArtifact m f t).implicit_deps = [(objLib m).binname] := by
    intro t
    unfold perCaseArtifact
    split <;> exact ⟨rfl, rfl⟩
  have hmono : ((monoArtifact m f).kind == ArtifactKind.lib) = false := by
    unfold monoArtifact
    simp only
    split <;> rfl
  have hmonodep : (monoArtifact m f).implicit_deps = [(objLib m).binname] := rfl
  rw [plan_eq]
  split
  · simp [objLib]
  · split
    · refine ⟨rfl, ?_, ?_⟩
      · simp [objLib, List.countP_cons, hmono]
      · refine List.all_eq_true.mpr ?_
        intro a ha
        rcases List.mem_cons.mp ha with rfl | ha
        · simp [objLib]
        · rcases List.mem_cons.mp ha with rfl | ha
          · simp [hmono, hmonodep]
          · simp at ha
    · refine ⟨rfl, ?_, ?_⟩
      · simp only [List.countP_cons]
        rw [List.countP_eq_zero.mpr]
        · simp [objLib]
        · intro a ha
          simp only [List.mem_map] at ha
          obtain ⟨t, _, rfl⟩ := ha
          simp [(hper t).1]
      · simp only [List.all_cons, Bool.and_eq_true]
        refine ⟨by simp [objLib], ?_⟩
        rw [List.all_eq_true]
        intro a ha
        obtain ⟨t, -, rfl⟩ := List.mem_map.mp ha
        simp [(hper t).1, (hper t).2]

/-- Claim C2 (code bug): in per-artifact mode on a generic desktop with
test cases `A`, `B`, the output is the library plus one plain binary
per case only — no resources anywhere, but also no extra `test-all`
binary, because the line-66 guard `if not generator.is_subninja:`
tests the truthiness of a bound method (always truthy, so the guard is
always false) instead of calling it as line 31 does. -/
theorem per_artifact_no_all_binary :
    (plan abManifest ⟨.genericDesktop, false, [], []⟩).map
        (fun a => (a.binname, a.kind, a.sources, a.resources))
      = [("obj", ArtifactKind.lib, ["obj.c", "mesh.c", "version.c"], []),
         ("test-A", ArtifactKind.bin, ["main.c"], []),
         ("test-B", ArtifactKind.bin, ["main.c"], [])] ∧
    (plan abManifest ⟨.genericDesktop, false, [], []⟩).filter
        (fun a => a.binname == "test-all") = [] := by
  decide

/-- Claim C3, counterexample: on a generic desktop with a monolithic
toolchain and test cases `A`, `B`, the single non-library artifact's
sources are `['A/main.c', 'B/main.c', 'all/main.c']` — the reserved
`all` case's entry point is appended (line 43), so the sources do not
equal `[A.entry, B.entry] ++ platformExtraSources` (which is
`['A/main.c', 'B/main.c']` here, the desktop extra-source set being
empty). -/
theorem monolithic_merge_counterexample :
    ((plan abManifest ⟨.genericDesktop, true, [], []⟩).filter
        (fun a => a.kind != ArtifactKind.lib)).map (fun a => a.sources)
      = [["A/main.c", "B/main.c", "all/main.c"]] ∧
    (["A/main.c", "B/main.c", "all/main.c"] : List String)
      ≠ ["A/main.c", "B/main.c"] ++ monoExtraSources PlatformKind.genericDesktop := by
  decide

/-- Claim C3 as amended: under the monolithic condition, exactly one
non-library artifact is declared; its sources are the entry points of
the test cases in order, then the reserved `all` case's entry point,
then the platform's extra sources; its resources are exactly one copy
of the platform's monolithic resource set. -/
theorem monolithic_merge_amended (m : Manifest) (f : Facts)
    (hs : m.isSubmodule = false) (hm : monoCond f = true) :
    ((plan m f).filter (fun a => a.kind != ArtifactKind.lib)).map
        (fun a => (a.sources, a.resources))
      = [((m.testCases ++ ["all"]).map (fun t => pathJoin t "main.c")
            ++ monoExtraSources f.platform,
          monoResources f.platform)] := by
  have hk : ((monoArtifact m f).kind != ArtifactKind.lib) = true := by
    unfold monoArtifact
    simp only
    split <;> rfl
  rw [plan_eq, if_neg (by simp [hs]), if_pos hm]
  rw [List.filter_cons, List.filter_cons]
  simp only [hk]
  norm_num [objLib, monoArtifact]

/-- Concrete instance of `monolithic_merge_amended`: test cases `A`,
`B` on a generic desktop with a monolithic toolchain. -/
theorem monolithic_merge_amended_witness :
    abManifest.isSubmodule = false ∧
    monoCond ⟨.genericDesktop, true, [], []⟩ = true ∧
    ((plan abManifest ⟨.genericDesktop, true, [], []⟩).filter
        (fun a => a.kind != ArtifactKind.lib)).map
        (fun a => (a.sources, a.resources))
      = [((abManifest.testCases ++ ["all"]).map (fun t => pathJoin t "main.c")
            ++ monoExtraSources PlatformKind.genericDesktop,
          monoResources PlatformKind.genericDesktop)] :=
  ⟨by decide, by decide,
   monolithic_merge_amended abManifest ⟨.genericDesktop, true, [], []⟩ (by decide) (by decide)⟩

/-- Claim C4: when the platform is iOS, Android or Tizen, the plan for
a non-submodule manifest has exactly one non-library artifact, the
`test-all` app bundle, whatever the toolchain's monolithic answer —
line 39 takes the monolithic branch on the platform bits alone, and
line 60 then picks `generator.app` for these platforms. -/
theorem bundle_platform_forcing (m : Manifest) (p : PlatformKind) (mono : Bool)
    (cs tip : List String) (hs : m.isSubmodule = false)
    (hp : (p.is_ios || p.is_android || p.is_tizen) = true) :
    ((plan m ⟨p, mono, cs, tip⟩).filter (fun a => a.kind != ArtifactKind.lib)).map
      (fun a => (a.kind, a.binname)) = [(ArtifactKind.app, "test-all")] := by
  have hm : monoCond ⟨p, mono, cs, tip⟩ = true := by
    cases p <;> simp_all [monoCond, PlatformKind.is_ios, PlatformKind.is_android,
      PlatformKind.is_tizen]
  have hk : (monoArtifact m ⟨p, mono, cs, tip⟩).kind = ArtifactKind.app := by
    cases p <;> simp_all [monoArtifact, PlatformKind.is_ios, PlatformKind.is_android,
      PlatformKind.is_tizen, PlatformKind.is_macos]
  rw [plan_eq, if_neg (by simp [hs]), if_pos hm]
  have h1 : ((objLib m).kind != ArtifactKind.lib) = false := rfl
  have h2 : ((monoArtifact m ⟨p, mono, cs, tip⟩).kind != ArtifactKind.lib) = true := by
    rw [hk]; rfl
  have hb : (monoArtifact m ⟨p, mono, cs, tip⟩).binname = "test-all" := rfl
  simp [List.filter_cons, h1, h2, hk, hb]

/-- Concrete instance of `bundle_platform_forcing`: iOS with a
toolchain whose monolithic answer is `false`. -/
theorem bundle_platform_forcing_witness :
    objManifest.isSubmodule = false ∧
    (PlatformKind.ios.is_ios || PlatformKind.ios.is_android || PlatformKind.ios.is_tizen) = true ∧
    ((plan objManifest ⟨.ios, false, [], []⟩).filter
        (fun a => a.kind != ArtifactKind.lib)).map
      (fun a => (a.kind, a.binname)) = [(ArtifactKind.app, "test-all")] :=
  ⟨by decide, by decide,
   bundle_platform_forcing objManifest .ios false [] [] (by decide) (by decide)⟩

/-- Claim C6, counterexample: on macOS with a monolithic toolchain the
single non-library artifact is an app bundle whose resource list is
empty — lines 41-59 only populate `test_resources` for iOS, Android
and Tizen, so the macOS monolithic bundle of line 61 gets `[]`,
refuting the claimed non-empty plist/xcassets/xib resource set. -/
theorem macos_bundle_resources_counterexample :
    ((plan objManifest ⟨.macos, true, [], []⟩).filter
        (fun a => a.kind != ArtifactKind.lib)).map
      (fun a => (a.kind, a.resources)) = [(ArtifactKind.app, [])] := by
  decide

/-- Claim C6 as amended: on macOS every non-library artifact is an app
bundle; in per-artifact mode it carries the per-test resource set
`['osx/test-<case>.plist', 'osx/Images.xcassets', 'osx/test-<case>.xib']`,
while in monolithic mode the single bundle's resource list is empty. -/
theorem macos_bundle_amended (m : Manifest) (mono : Bool) (cs tip : List String)
    (a : Artifact)
    (ha : a ∈ plan m ⟨.macos, mono, cs, tip⟩) (hk : a.kind ≠ ArtifactKind.lib) :
    a.kind = ArtifactKind.app ∧
      a.resources = if mono then [] else macResources a.module := by
  rcases (mem_plan_iff _ _ a).mp ha with rfl | ⟨-, ⟨hm, rfl⟩ | ⟨hm, t, -, rfl⟩⟩
  · exact absurd rfl hk
  · have hmt : mono = true := by
      simpa [monoCond, PlatformKind.is_ios, PlatformKind.is_android,
        PlatformKind.is_tizen] using hm
    subst hmt
    exact ⟨rfl, rfl⟩
  · have hmf : mono = false := by
      simpa [monoCond, PlatformKind.is_ios, PlatformKind.is_android,
        PlatformKind.is_tizen] using hm
    subst hmf
    exact ⟨rfl, rfl⟩

/-- Concrete instance of `macos_bundle_amended`: the per-artifact app
bundle for test case `obj` on macOS. -/
theorem macos_bundle_amended_witness :
    perCaseArtifact objManifest ⟨.macos, false, [], []⟩ "obj"
      ∈ plan objManifest ⟨.macos, false, [], []⟩ ∧
    (perCaseArtifact objManifest ⟨.macos, false, [], []⟩ "obj").kind ≠ ArtifactKind.lib ∧
    ((perCaseArtifact objManifest ⟨.macos, false, [], []⟩ "obj").kind = ArtifactKind.app ∧
      (perCaseArtifact objManifest ⟨.macos, false, [], []⟩ "obj").resources
        = if false then []
          else macResources (perCaseArtifact objManifest ⟨.macos, false, [], []⟩ "obj").module) :=
  ⟨by decide, by decide,
   macos_bundle_amended objManifest false [] [] _ (by decide) (by decide)⟩

/-- Claim C7, counterexample: for an unrecognized platform (every
recognized-platform query answers false) the script does not fail — it
runs the per-artifact desktop path and emits a plain binary, so
artifacts are emitted and plain binaries are the silent default. -/
theorem unknown_platform_counterexample :
    (plan objManifest ⟨.other, false, [], []⟩).map (fun a => (a.kind, a.binname, a.resources))
      = [(ArtifactKind.lib, "obj", []), (ArtifactKind.bin, "test-obj", [])] := by
  decide

/-- Claim C7 as amended: an unrecognized platform kind is not rejected;
the planner behaves exactly as on a generic desktop, and every
artifact it emits is the library or a resource-free plain binary. -/
theorem unknown_platform_defaults (m : Manifest) (mono : Bool) (cs tip : List String) :
    plan m ⟨.other, mono, cs, tip⟩ = plan m ⟨.genericDesktop, mono, cs, tip⟩ ∧
    (plan m ⟨.other, mono, cs, tip⟩).all
      (fun a => a.kind == ArtifactKind.lib ||
        (a.kind == ArtifactKind.bin && a.resources == ([] : List String))) = true := by
  refine ⟨rfl, ?_⟩
  rw [plan_eq]
  split
  · simp [objLib]
  · split
    · simp [objLib, monoArtifact, monoResources, PlatformKind.is_macos,
        PlatformKind.is_ios, PlatformKind.is_android, PlatformKind.is_tizen]
    · refine List.all_eq_true.mpr ?_
      intro a ha
      rcases List.mem_cons.mp ha with rfl | ha
      · simp [objLib]
      · obtain ⟨t, -, rfl⟩ := List.mem_map.mp ha
        simp [perCaseArtifact, PlatformKind.is_macos]
